import Mathlib

/-!
Verification model of the sphinx-gha extension, a documentation plugin that
reads GitHub Actions and workflow YAML files and renders their inputs,
outputs, secrets and environment variables, with a cross-reference domain.
Every definition below is a shallow embedding of the corresponding Python
code in src/sphinx_gha/ext.py; doc comments name the embedded function.
-/

namespace SphinxGHA

/-- Keys of YAML mappings as produced by the YAML loader: strings and
booleans (a bare key `on:` is parsed by YAML as the boolean true). -/
inductive Key where
  | str (s : String)
  | bool (b : Bool)
deriving DecidableEq

/-- YAML values. The Python value None and a missing mapping key are both
represented by `null`, matching dict.get which returns None in both cases. -/
inductive Yaml where
  | null
  | bool (b : Bool)
  | int (n : Int)
  | str (s : String)
  | list (xs : List Yaml)
  | map (entries : List (Key × Yaml))

/-- Python truthiness of a YAML value, as used by `if x:` and `x or y`. -/
def truthy : Yaml → Bool
  | .null => false
  | .bool b => b
  | .int n => n != 0
  | .str s => s != ""
  | .list xs => !xs.isEmpty
  | .map es => !es.isEmpty

/-- Python `x is None` on a YAML value. -/
def is_none : Yaml → Bool
  | .null => true
  | _ => false

/-- Python dict.get on a mapping: the value of the first entry with the given
key, and None (`null`) when the key is absent. -/
def py_get : List (Key × Yaml) → Key → Yaml
  | [], _ => .null
  | (k, v) :: rest, key => if k = key then v else py_get rest key

/-- Python `a or b`. -/
def py_or (a b : Yaml) : Yaml := if truthy a then a else b

/-- Python str() of a YAML scalar. Container values are abbreviated; the
claims only ever evaluate this on scalars, and no theorem depends on the
textual form of a container. -/
def py_str : Yaml → String
  | .null => "None"
  | .bool true => "True"
  | .bool false => "False"
  | .int n => toString n
  | .str s => s
  | .list _ => "<list>"
  | .map _ => "<dict>"

/-- Splitting a character list at a separator, the semantics of the Python
str.split method: `split_chars c s` always returns at least one piece, and
`"".split(c) = [""]`. -/
def split_chars (sep : Char) : List Char → List (List Char)
  | [] => [[]]
  | c :: rest =>
    let r := split_chars sep rest
    if c = sep then [] :: r
    else
      match r with
      | h :: t => (c :: h) :: t
      | [] => [[c]]

/-- Python str.startswith. -/
def str_starts_with (s pre : String) : Bool := pre.data.isPrefixOf s.data

/-- Python `sep.join(xs)`. -/
def join_sep (sep : String) : List String → String
  | [] => ""
  | [s] => s
  | s :: rest => s ++ sep ++ join_sep sep rest

/-- Python `filter(None, xs)` over a list of optional strings: keeps the
truthy elements, dropping None and the empty string. -/
def filter_truthy_strs (xs : List (Option String)) : List String :=
  (xs.filterMap id).filter (fun s => s != "")

/-- The expression `typ.split(chr).neg1` written in resolve_xref as
typ.split(colon) taking the last piece. -/
def typ_name (typ : String) : String :=
  String.mk ((split_chars ':' typ.data).getLastD [])

/-- One entry of the GHActionsDomain object registry, the 6-tuples stored in
self.data (qualified name, display name, object type, document, anchor,
priority), see note_object and get_objects. -/
structure Entry where
  name : String
  dispname : String
  objtype : String
  docname : String
  anchor : String
  prio : Nat
deriving DecidableEq

/-- The reference context read off the pending_xref node by resolve_xref:
node.get of the keys gh-actions:action and gh-actions:workflow. -/
structure XrefCtx where
  action : Option String
  workflow : Option String
deriving DecidableEq

/-- The reference node built by make_refnode: origin document, target
document, anchor, and the title (the dispname variable of resolve_xref). -/
structure RefNode where
  fromdocname : String
  docname : String
  anchor : String
  title : String
deriving DecidableEq

/-- Diagnostics the extension can emit: every call of self.error and of
logger.warning in ext.py has one constructor here, plus one constructor for
the AttributeError the workflow directive raises when the value holding the
triggers is not a mapping. -/
inductive Diag where
  | no_path_or_name
  | action_def_not_found (path : String)
  | no_repo_slug
  | workflow_no_on
  | workflow_not_callable
  | py_attribute_error
  | xref_ambiguous (target : String) (docnames : String)
deriving DecidableEq

/-- The target-extension step of GHActionsDomain.resolve_xref: a target with
no dot is joined to the parent taken from the node context (chosen by the
prefix of the reference type name), via the Python expression
chr46.join(filter(None, [parent_name, target])). -/
def effective_target (typ target : String) (ctx : XrefCtx) : String :=
  if (split_chars '.' target.data).length = 1 then
    let tn := typ_name typ
    let parent : Option String :=
      if str_starts_with tn "action-" then ctx.action
      else if str_starts_with tn "workflow-" then ctx.workflow
      else none
    join_sep "." (filter_truthy_strs [parent, some target])
  else target

/-- The list comprehension of resolve_xref: the (docname, anchor) pairs of
the registry entries whose qualified name equals the looked-up target and
whose object type equals the reference type, in registry order. -/
def scan_matches (objs : List Entry) (typ key : String) : List (String × String) :=
  objs.filterMap fun e =>
    if e.name = key ∧ e.objtype = typ then some (e.docname, e.anchor) else none

/-- The tail of resolve_xref after the matches are computed: None when there
is no match, a warning naming the matching documents when there is more than
one, and a reference node built from the first match. -/
def mk_xref_result (fromdoc dispname key : String) (ms : List (String × String)) :
    List Diag × Option RefNode :=
  match ms with
  | [] => ([], none)
  | m :: rest =>
    ((if rest.isEmpty then []
      else [Diag.xref_ambiguous key (join_sep ", " ((m :: rest).map Prod.fst))]),
     some ⟨fromdoc, m.1, m.2, dispname⟩)

/-- GHActionsDomain.resolve_xref as a pure function of the registry: emitted
warnings paired with the optional reference node. The dispname variable is
bound to the original target before the parent extension, so the title of the
returned node is the unextended target. -/
def resolve_xref_pure (objs : List Entry) (fromdoc typ target : String) (ctx : XrefCtx) :
    List Diag × Option RefNode :=
  let key := effective_target typ target ctx
  mk_xref_result fromdoc target key (scan_matches objs typ key)

/-- The keys of GHActionsDomain.object_types, which equal the keys of the
directives dict, in insertion order; resolve_any_xref iterates them. -/
def object_type_keys : List String :=
  ["action", "action-input", "action-output", "action-envvar",
   "workflow", "workflow-input", "workflow-secret", "workflow-output"]

/-- GHActionsDomain.resolve_any_xref as a pure function: calls resolve_xref
for every object type and collects the non-None results with their types. -/
def resolve_any_xref_pure (objs : List Entry) (fromdoc target : String) (ctx : XrefCtx) :
    List Diag × List (String × RefNode) :=
  object_type_keys.foldl
    (fun acc typ =>
      let r := resolve_xref_pure objs fromdoc typ target ctx
      (acc.1 ++ r.1,
       acc.2 ++ (match r.2 with | some n => [(typ, n)] | none => [])))
    ([], [])

/-- The mutable data of GHActionsDomain: self.data, holding the object
registry list. -/
structure DomainData where
  objects : List Entry
deriving DecidableEq

/-- GHActionsDomain.initial_data: the registry starts empty. -/
def initial_data : DomainData := ⟨[]⟩

/-- GHActionsDomain.note_object: appends one 6-tuple with the current
document name and priority 1 to self.data. -/
def note_object (d : DomainData) (name dispname typ docname anchor : String) : DomainData :=
  ⟨d.objects ++ [⟨name, dispname, typ, docname, anchor, 1⟩]⟩

/-- resolve_xref as an operation on the domain state: the method only reads
self.data (through get_objects), so the state component is returned as is. -/
def resolve_xref_op (d : DomainData) (fromdoc typ target : String) (ctx : XrefCtx) :
    (List Diag × Option RefNode) × DomainData :=
  (resolve_xref_pure d.objects fromdoc typ target ctx, d)

/-- resolve_any_xref as an operation on the domain state; also read-only. -/
def resolve_any_xref_op (d : DomainData) (fromdoc target : String) (ctx : XrefCtx) :
    (List Diag × List (String × RefNode)) × DomainData :=
  (resolve_any_xref_pure d.objects fromdoc target ctx, d)

/-- The methods of GHActionsDomain that touch self.data, as one operation
type: note_object, resolve_xref, resolve_any_xref and get_objects. -/
inductive DomainOp where
  | note (name dispname typ docname anchor : String)
  | resolve (fromdoc typ target : String) (ctx : XrefCtx)
  | resolveAny (fromdoc target : String) (ctx : XrefCtx)
  | getObjects

/-- The effect of each domain operation on the domain state. -/
def apply_op (d : DomainData) : DomainOp → DomainData
  | .note n ds t doc a => note_object d n ds t doc a
  | .resolve fd ty tg ctx => (resolve_xref_op d fd ty tg ctx).2
  | .resolveAny fd tg ctx => (resolve_any_xref_op d fd tg ctx).2
  | .getObjects => d

/-- The signature node fields set by ActionsItemDirective.handle_signature:
name is the raw signature, parent is set only when the reference context
holds a truthy parent, and fullname is the dot-joined qualified name. -/
structure SigNodeData where
  name : String
  parent : Option String
  fullname : String
deriving DecidableEq

/-- ActionsItemDirective.handle_signature: reads the parent from
env.ref_context (None when no enclosing file directive put one there) and
computes the fullname; `if parent:` is Python truthiness, so an empty-string
parent counts as absent. -/
def handle_signature (parent_ctx : Option String) (sig : String) : SigNodeData :=
  match parent_ctx with
  | some parent =>
    if parent ≠ "" then ⟨sig, some parent, parent ++ "." ++ sig⟩
    else ⟨sig, none, sig⟩
  | none => ⟨sig, none, sig⟩

/-- ActionsItemDirective.add_target_and_index: registers the node under its
fullname in the gh-actions domain via note_object. -/
def add_target_and_index (d : DomainData) (node : SigNodeData)
    (objtype docname node_id : String) : DomainData :=
  note_object d node.fullname node.name objtype docname node_id

/-- ActionsFileDirective.id: the first directive argument when one is given,
otherwise the id derived from the path (id_from_path, a method the action
directive overrides, passed here as a function), otherwise the error about a
missing path and name. -/
def id_compute (id_from_path : String → String) (arguments : List String)
    (path : Option String) : Except Diag String :=
  match arguments with
  | a :: _ => .ok a
  | [] =>
    match path with
    | some p => .ok (id_from_path p)
    | none => .error .no_path_or_name

/-- ActionDirective.path: when a path option is given it is resolved against
the repo root, then the two candidate file names action.yml and action.yaml
are probed, then the path itself as a file; otherwise the directive errors.
Path joining is modelled as slash concatenation; fs_exists and fs_is_file
stand for the filesystem probes. -/
def action_path_compute (opt_path : Option String) (repo_root : String)
    (fs_exists fs_is_file : String → Bool) : Except Diag (Option String) :=
  match opt_path with
  | none => .ok none
  | some p =>
    let path := repo_root ++ "/" ++ p
    if fs_exists (path ++ "/action.yml") then .ok (some (path ++ "/action.yml"))
    else if fs_exists (path ++ "/action.yaml") then .ok (some (path ++ "/action.yaml"))
    else if fs_is_file path then .ok (some path)
    else .error (.action_def_not_found path)

/-- Python dict assignment d[k] = v on an association list: replace the
first binding of k, or append a new one. -/
def dict_set : List (Key × Yaml) → Key → Yaml → List (Key × Yaml)
  | [], k, v => [(k, v)]
  | (k0, v0) :: rest, k, v =>
    if k0 = k then (k, v) :: rest else (k0, v0) :: dict_set rest k v

/-- The expression `self.yaml.get(k) or` empty dict of ActionDirective.example
for the x_example_inputs and x_example_env keys. A truthy non-mapping value
would crash Python on the later item iteration and is modelled as empty. -/
def py_map_or_empty : Yaml → List (Key × Yaml)
  | .map m => m
  | _ => []

/-- The inner loop of ActionDirective.example: for every item of a section
whose metadata carries a truthy example key, record that example under the
item name. Non-mapping metadata (which Python replaces by an empty dict when
falsy) contributes nothing. -/
def collect_examples (base : List (Key × Yaml)) (section_items : List (Key × Yaml))
    (example_key : String) : List (Key × Yaml) :=
  section_items.foldl
    (fun acc kv =>
      let meta := py_map_or_empty kv.2
      let ex := py_get meta (.str example_key)
      if truthy ex then dict_set acc kv.1 ex else acc)
    base

/-- The value ActionDirective.example evaluates to: the x-example option
verbatim, the empty string when there is no path, or the generated usage
snippet (modelled structurally; yaml.dump formatting is not modelled). -/
inductive ExampleOut where
  | from_option (s : String)
  | empty
  | generated (name : Option Yaml) (uses : String)
      (with_inputs : List (Key × Yaml)) (env : List (Key × Yaml))

/-- The generation tail of ActionDirective.example, reached when the
x-example option is falsy: no path yields the empty example, a missing repo
slug errors, and otherwise the uses string is extended with the relative
path and the ref, and examples are collected from x-env and inputs. The
relative path of the action directory is passed in as computed from the
filesystem. -/
def action_example_gen (path : Option String) (slug : Option String)
    (relative_path : String) (action_ref : Option String)
    (yaml : List (Key × Yaml)) : Except Diag ExampleOut :=
  match path with
  | none => .ok .empty
  | some _ =>
    match slug with
    | none => .error .no_repo_slug
    | some slug0 =>
      let slug1 := if relative_path ≠ "." then slug0 ++ "/" ++ relative_path else slug0
      let slug2 :=
        match action_ref with
        | some r => if r ≠ "" then slug1 ++ "@" ++ r else slug1
        | none => slug1
      let name := py_get yaml (.str "x-example-name")
      let inputs0 := py_map_or_empty (py_get yaml (.str "x_example_inputs"))
      let env0 := py_map_or_empty (py_get yaml (.str "x_example_env"))
      let env1 :=
        if truthy (py_get yaml (.str "x-env")) then
          collect_examples env0 (py_map_or_empty (py_get yaml (.str "x-env"))) "example"
        else env0
      let inputs1 :=
        if truthy (py_get yaml (.str "inputs")) then
          collect_examples inputs0 (py_map_or_empty (py_get yaml (.str "inputs"))) "x-example"
        else inputs0
      .ok (.generated (if truthy name then some name else none) slug2 inputs1 env1)

/-- ActionDirective.example: a truthy x-example option short-circuits,
otherwise the example is generated. -/
def action_example (x_example : Option String) (path : Option String)
    (slug : Option String) (relative_path : String) (action_ref : Option String)
    (yaml : List (Key × Yaml)) : Except Diag ExampleOut :=
  match x_example with
  | some s => if s ≠ "" then .ok (.from_option s) else
      action_example_gen path slug relative_path action_ref yaml
  | none => action_example_gen path slug relative_path action_ref yaml

/-- One rendered content block: the parsed description, the example code
section, or one item-list section with its title, child directive name and
the mapping of documented items. -/
inductive Block where
  | description (v : Yaml)
  | example_section (code : String)
  | item_section (title : String) (directive : String) (items : Yaml)

/-- The description part of ActionsFileDirective.transform_content: the
description key is rendered when present and truthy. -/
def description_blocks (yaml : List (Key × Yaml)) : List Block :=
  if truthy (py_get yaml (.str "description")) then
    [.description (py_get yaml (.str "description"))]
  else []

/-- The item_lists loop shared by the action and workflow directives: for
every known key present and truthy in the source mapping, one section built
by format_item_list. -/
def item_sections (source : List (Key × Yaml)) (lists : List (String × String × String)) :
    List Block :=
  lists.filterMap fun kv =>
    let v := py_get source (.str kv.1)
    if truthy v then some (.item_section kv.2.1 kv.2.2 v) else none

/-- The item_lists table of ActionDirective.transform_content. -/
def action_item_lists : List (String × String × String) :=
  [("inputs", "Inputs", "action-input"),
   ("outputs", "Outputs", "action-output"),
   ("x-env", "Environment Variables", "action-envvar")]

/-- The item_lists table of WorkflowDirective.transform_content. -/
def workflow_item_lists : List (String × String × String) :=
  [("inputs", "Inputs", "workflow-input"),
   ("secrets", "Secrets", "workflow-secret"),
   ("outputs", "Outputs", "workflow-output")]

/-- ActionDirective.transform_content: the base class renders the
description and, when the example string is nonempty, the example code
section; then one section per present item list key. -/
def action_transform_content (yaml : List (Key × Yaml)) (example_str : String) : List Block :=
  (description_blocks yaml ++
    (if example_str ≠ "" then [.example_section example_str] else [])) ++
  item_sections yaml action_item_lists

/-- The trigger node of WorkflowDirective.transform_content: the expression
self.yaml.get(on-string) or self.yaml.get(True), accepting the mapping under
the string key or under the boolean key the YAML loader produces for a bare
on key. -/
def wf_on_node (yaml : List (Key × Yaml)) : Yaml :=
  py_or (py_get yaml (.str "on")) (py_get yaml (.bool true))

/-- WorkflowDirective.transform_content: content blocks plus the optional
diagnostic. The base class first renders the description (the workflow
example string is always empty); then the directive errors when the trigger
node is None or has no workflow_call entry, and otherwise renders one
section per present key of the workflow_call mapping. A trigger or call
value that is not a mapping raises AttributeError in Python. -/
def workflow_transform_content (yaml : List (Key × Yaml)) : List Block × Option Diag :=
  let base := description_blocks yaml
  let on_node := wf_on_node yaml
  if is_none on_node then (base, some .workflow_no_on)
  else
    match on_node with
    | .map on_map =>
      let call_node := py_get on_map (.str "workflow_call")
      if is_none call_node then (base, some .workflow_not_callable)
      else
        match call_node with
        | .map call_map => (base ++ item_sections call_map workflow_item_lists, none)
        | _ => (base, some .py_attribute_error)
    | _ => (base, some .py_attribute_error)

/-- The item directive subclasses of ActionsItemDirective, in the order the
classes are created when the module loads. -/
inductive ItemKind where
  | action_input
  | action_output
  | action_envvar
  | workflow_input
  | workflow_secret
  | workflow_output
deriving DecidableEq

/-- The fields class attribute of each item directive (inherited where the
class does not declare one). -/
def fields_of : ItemKind → List String
  | .action_input => ["required", "default"]
  | .action_output => []
  | .action_envvar => ["required"]
  | .workflow_input => ["required", "default", "type"]
  | .workflow_secret => ["required", "default", "type"]
  | .workflow_output => []

/-- The option_spec dict a subclass declares in its own body, when it does:
only ActionInputDirective declares one. Every other subclass inherits the
dict object of the ActionsItemDirective base class, so the in-place dict
update of init_subclass mutates the shared base dict. -/
def own_option_spec : ItemKind → Option (List String)
  | .action_input => some ["deprecationMessage"]
  | _ => none

/-- Python dict union (the |= operator) on key lists: keys of the left
operand, then the new keys of the right, preserving insertion order. -/
def dict_union (a b : List String) : List String :=
  a ++ b.filter (fun k => !a.contains k)

/-- Module creation order of the item directive subclasses. -/
def subclass_order : List ItemKind :=
  [.action_input, .action_output, .action_envvar,
   .workflow_input, .workflow_secret, .workflow_output]

/-- The effect of ActionsItemDirective.init_subclass over the module load:
for a class with its own option_spec dict, that dict receives the fields and
the current base dict; for a class sharing the base dict, the update mutates
the base dict in place (the second merge, of the base dict into itself, is a
no-op). Returns the final base dict keys and the dict keys of the one class
with its own dict (ActionInputDirective). -/
def run_init_subclass : List ItemKind → List String → List String → List String × List String
  | [], base, own_ai => (base, own_ai)
  | k :: rest, base, own_ai =>
    match own_option_spec k with
    | some own =>
      let s := dict_union (dict_union own (fields_of k)) base
      run_init_subclass rest base s
    | none =>
      let base2 := dict_union base (fields_of k)
      run_init_subclass rest base2 own_ai

/-- The option_spec keys of each item directive after the module has loaded:
ActionInputDirective has its own dict, every other subclass shares the
(mutated) base dict, which started with the single description key. -/
def option_spec_keys (k : ItemKind) : List String :=
  let r := run_init_subclass subclass_order ["description"] []
  match own_option_spec k with
  | some _ => r.2
  | none => r.1

/-- ActionsItemDirective.generate: the options dict passed to the child
directive keeps exactly the metadata keys found in the option_spec of the
class, with values converted by str. Mapping keys are strings here; a
boolean key is never in the option_spec. -/
def generate_options (k : ItemKind) (item_meta : List (Key × Yaml)) :
    List (String × String) :=
  item_meta.filterMap fun kv =>
    match kv.1 with
    | .str s => if (option_spec_keys k).contains s then some (s, py_str kv.2) else none
    | .bool _ => none

/-- The None guard of ActionsFileDirective.format_item_list: item metadata
that is None becomes an empty dict before generate runs. -/
def item_meta_or_empty : Yaml → List (Key × Yaml)
  | .null => []
  | .map m => m
  | _ => []

/-- Helper: under the action- prefix with a nonempty parent in context, the
target extension of resolve_xref produces parent-dot-target. -/
theorem effective_target_action_eq (typ target : String) (ctx : XrefCtx) (p : String)
    (h1 : (split_chars '.' target.data).length = 1) (h0 : target ≠ "")
    (h2 : str_starts_with (typ_name typ) "action-" = true)
    (h3 : ctx.action = some p) (h4 : p ≠ "") :
    effective_target typ target ctx = p ++ "." ++ target := by
  simp [effective_target, h1, h2, h3, filter_truthy_strs, h4, h0, join_sep]

/-- Helper: the same for the workflow- prefix. -/
theorem effective_target_workflow_eq (typ target : String) (ctx : XrefCtx) (p : String)
    (h1 : (split_chars '.' target.data).length = 1) (h0 : target ≠ "")
    (h2 : str_starts_with (typ_name typ) "action-" = false)
    (h2w : str_starts_with (typ_name typ) "workflow-" = true)
    (h3 : ctx.workflow = some p) (h4 : p ≠ "") :
    effective_target typ target ctx = p ++ "." ++ target := by
  simp [effective_target, h1, h2, h2w, h3, filter_truthy_strs, h4, h0, join_sep]

/-- C1: when more than one registry entry matches the (possibly
parent-extended) target with the requested reference type, resolve_xref
emits one warning listing the matching documents, joined by comma-space, and
returns the reference node built from the first matching entry in registry
order. -/
theorem resolve_xref_ambiguous_warns_and_takes_first
    (objs : List Entry) (fromdoc typ target : String) (ctx : XrefCtx)
    (h : 2 ≤ (scan_matches objs typ (effective_target typ target ctx)).length) :
    resolve_xref_pure objs fromdoc typ target ctx =
      ([Diag.xref_ambiguous (effective_target typ target ctx)
          (join_sep ", "
            ((scan_matches objs typ (effective_target typ target ctx)).map Prod.fst))],
       ((scan_matches objs typ (effective_target typ target ctx)).head?).map
         (fun m => ⟨fromdoc, m.1, m.2, target⟩)) := by
  simp only [resolve_xref_pure]
  cases hms : scan_matches objs typ (effective_target typ target ctx) with
  | nil => rw [hms] at h; simp at h
  | cons a t =>
    cases t with
    | nil => rw [hms] at h; simp at h
    | cons b t2 => simp [mk_xref_result]

/-- Witness for C1 at a concrete two-entry registry. -/
theorem resolve_xref_ambiguous_warns_and_takes_first_witness :
    resolve_xref_pure
      [⟨"a.b", "b", "action-input", "doc1", "anch1", 1⟩,
       ⟨"a.b", "b", "action-input", "doc2", "anch2", 1⟩]
      "from" "action-input" "b" ⟨some "a", none⟩ =
      ([Diag.xref_ambiguous "a.b" "doc1, doc2"],
       some ⟨"from", "doc1", "anch1", "b"⟩) :=
  (resolve_xref_ambiguous_warns_and_takes_first
    [⟨"a.b", "b", "action-input", "doc1", "anch1", 1⟩,
     ⟨"a.b", "b", "action-input", "doc2", "anch2", 1⟩]
    "from" "action-input" "b" ⟨some "a", none⟩ (by decide)).trans (by decide)

/-- C2: a dot-free target under an action- (resp. workflow-) reference type
with a nonempty parent in the node context is first extended to
parent.target and only then looked up in the registry; a target that
already contains a dot is looked up unchanged. -/
theorem resolve_xref_target_extension
    (objs : List Entry) (fromdoc typ target : String) (ctx : XrefCtx) :
    (∀ p, (split_chars '.' target.data).length = 1 → target ≠ "" →
       str_starts_with (typ_name typ) "action-" = true →
       ctx.action = some p → p ≠ "" →
       resolve_xref_pure objs fromdoc typ target ctx =
         mk_xref_result fromdoc target (p ++ "." ++ target)
           (scan_matches objs typ (p ++ "." ++ target))) ∧
    (∀ p, (split_chars '.' target.data).length = 1 → target ≠ "" →
       str_starts_with (typ_name typ) "action-" = false →
       str_starts_with (typ_name typ) "workflow-" = true →
       ctx.workflow = some p → p ≠ "" →
       resolve_xref_pure objs fromdoc typ target ctx =
         mk_xref_result fromdoc target (p ++ "." ++ target)
           (scan_matches objs typ (p ++ "." ++ target))) ∧
    ((split_chars '.' target.data).length ≠ 1 →
       resolve_xref_pure objs fromdoc typ target ctx =
         mk_xref_result fromdoc target target (scan_matches objs typ target)) := by
  refine ⟨?_, ?_, ?_⟩
  · intro p h1 h0 h2 h3 h4
    simp only [resolve_xref_pure]
    rw [effective_target_action_eq typ target ctx p h1 h0 h2 h3 h4]
  · intro p h1 h0 h2 h2w h3 h4
    simp only [resolve_xref_pure]
    rw [effective_target_workflow_eq typ target ctx p h1 h0 h2 h2w h3 h4]
  · intro h1
    simp only [resolve_xref_pure]
    rw [show effective_target typ target ctx = target by
      simp [effective_target, h1]]

/-- Witness for C2 at a concrete input exercising all three cases. -/
theorem resolve_xref_target_extension_witness :
    (resolve_xref_pure [] "d" "action-input" "x" ⟨some "act", none⟩ =
      mk_xref_result "d" "x" ("act" ++ "." ++ "x")
        (scan_matches [] "action-input" ("act" ++ "." ++ "x"))) ∧
    (resolve_xref_pure [] "d" "workflow-input" "x" ⟨none, some "wf"⟩ =
      mk_xref_result "d" "x" ("wf" ++ "." ++ "x")
        (scan_matches [] "workflow-input" ("wf" ++ "." ++ "x"))) ∧
    (resolve_xref_pure [] "d" "action-input" "a.b" ⟨some "act", none⟩ =
      mk_xref_result "d" "a.b" "a.b" (scan_matches [] "action-input" "a.b")) :=
  ⟨(resolve_xref_target_extension [] "d" "action-input" "x" ⟨some "act", none⟩).1
     "act" (by decide) (by decide) (by decide) rfl (by decide),
   (resolve_xref_target_extension [] "d" "workflow-input" "x" ⟨none, some "wf"⟩).2.1
     "wf" (by decide) (by decide) (by decide) (by decide) rfl (by decide),
   (resolve_xref_target_extension [] "d" "action-input" "a.b" ⟨some "act", none⟩).2.2
     (by decide)⟩

/-- C3: an item documented while a parent action or workflow is in the
reference context is registered under parent.signature, and under the bare
signature when no parent is in context. -/
theorem item_registered_fullname
    (d : DomainData) (p sig objtype docname node_id : String) :
    (p ≠ "" →
       (add_target_and_index d (handle_signature (some p) sig) objtype docname node_id).objects
         = d.objects ++ [⟨p ++ "." ++ sig, sig, objtype, docname, node_id, 1⟩]) ∧
    ((add_target_and_index d (handle_signature none sig) objtype docname node_id).objects
       = d.objects ++ [⟨sig, sig, objtype, docname, node_id, 1⟩]) := by
  constructor
  · intro hp
    simp [add_target_and_index, handle_signature, note_object, hp]
  · simp [add_target_and_index, handle_signature, note_object]

/-- Witness for C3 at a concrete parent and signature. -/
theorem item_registered_fullname_witness :
    (add_target_and_index initial_data (handle_signature (some "my-action") "my-input")
        "action-input" "doc" "id0").objects
      = [⟨"my-action.my-input", "my-input", "action-input", "doc", "id0", 1⟩] :=
  ((item_registered_fullname initial_data "my-action" "my-input"
      "action-input" "doc" "id0").1 (by decide)).trans (by decide)

/-- C4: the registry starts empty, every domain operation at most appends,
and note_object appends exactly one entry with priority 1 and the current
document as source document. -/
theorem registry_append_only :
    initial_data.objects = [] ∧
    (∀ d op, ∃ tail, (apply_op d op).objects = d.objects ++ tail) ∧
    (∀ d name dispname typ docname anchor,
       apply_op d (.note name dispname typ docname anchor) =
         ⟨d.objects ++ [⟨name, dispname, typ, docname, anchor, 1⟩]⟩) := by
  refine ⟨rfl, ?_, ?_⟩
  · intro d op
    cases op with
    | note n ds t doc a => exact ⟨_, rfl⟩
    | resolve fd ty tg ctx => exact ⟨[], (List.append_nil _).symm⟩
    | resolveAny fd tg ctx => exact ⟨[], (List.append_nil _).symm⟩
    | getObjects => exact ⟨[], (List.append_nil _).symm⟩
  · intro d n ds t doc a
    rfl

/-- C8: with no matching registry entry resolve_xref returns None and warns
nothing, and neither resolve_xref nor resolve_any_xref changes the domain
data. -/
theorem resolve_xref_no_match_and_read_only
    (objs : List Entry) (fromdoc typ target : String) (ctx : XrefCtx) (d : DomainData) :
    (scan_matches objs typ (effective_target typ target ctx) = [] →
       resolve_xref_pure objs fromdoc typ target ctx = ([], none)) ∧
    (resolve_xref_op d fromdoc typ target ctx).2 = d ∧
    (resolve_any_xref_op d fromdoc target ctx).2 = d := by
  refine ⟨?_, rfl, rfl⟩
  intro h
  simp [resolve_xref_pure, h, mk_xref_result]

/-- Witness for C8 at an empty registry. -/
theorem resolve_xref_no_match_and_read_only_witness :
    resolve_xref_pure [] "d" "action-input" "x" ⟨none, none⟩ = ([], none) :=
  (resolve_xref_no_match_and_read_only [] "d" "action-input" "x" ⟨none, none⟩
    initial_data).1 (by decide)

/-- Helper: the description part of the rendered content never contains an
item-list section. -/
theorem item_section_not_mem_description_blocks
    (yaml : List (Key × Yaml)) (t dir : String) (v : Yaml) :
    Block.item_section t dir v ∉ description_blocks yaml := by
  unfold description_blocks
  split <;> simp

/-- Helper: membership of an item-list section in the rendered sections of
one item_lists table. -/
theorem item_sections_mem_iff (source : List (Key × Yaml))
    (lists : List (String × String × String)) (t dir : String) (v : Yaml) :
    Block.item_section t dir v ∈ item_sections source lists ↔
      ∃ k, (k, t, dir) ∈ lists ∧ v = py_get source (.str k) ∧
        truthy (py_get source (.str k)) = true := by
  simp only [item_sections, List.mem_filterMap]
  constructor
  · rintro ⟨⟨k, t0, dir0⟩, ha, hf⟩
    dsimp at hf
    split at hf
    · rename_i htr
      rw [Option.some.injEq, Block.item_section.injEq] at hf
      obtain ⟨ht, hd, hv⟩ := hf
      subst ht; subst hd
      exact ⟨k, ha, hv.symm, htr⟩
    · exact absurd hf (by simp)
  · rintro ⟨k, hk, hv, ht⟩
    exact ⟨(k, t, dir), hk, by subst hv; simp [ht]⟩

/-- Helper: a description block never comes from an item_lists table. -/
theorem description_not_mem_item_sections (source : List (Key × Yaml))
    (lists : List (String × String × String)) (v : Yaml) :
    Block.description v ∉ item_sections source lists := by
  simp only [item_sections, List.mem_filterMap]
  rintro ⟨a, -, hf⟩
  revert hf
  split <;> simp

/-- Helper: a description block is in the action content exactly when it is
in the description part. -/
theorem description_mem_action_transform (yaml : List (Key × Yaml))
    (example_str : String) (v : Yaml) :
    Block.description v ∈ action_transform_content yaml example_str ↔
      Block.description v ∈ description_blocks yaml := by
  simp only [action_transform_content, List.mem_append]
  constructor
  · rintro ((h | h) | h)
    · exact h
    · exact absurd h (by revert h; split <;> simp)
    · exact absurd h (description_not_mem_item_sections yaml action_item_lists v)
  · exact fun h => Or.inl (Or.inl h)

/-- Helper: an item section is in the action content exactly when it is in
the item_lists part. -/
theorem item_section_mem_action_transform (yaml : List (Key × Yaml))
    (example_str t dir : String) (v : Yaml) :
    Block.item_section t dir v ∈ action_transform_content yaml example_str ↔
      Block.item_section t dir v ∈ item_sections yaml action_item_lists := by
  simp only [action_transform_content, List.mem_append]
  constructor
  · rintro ((h | h) | h)
    · exact absurd h (item_section_not_mem_description_blocks yaml t dir v)
    · exact absurd h (by revert h; split <;> simp)
    · exact h
  · exact fun h => Or.inr h

/-- Helper: a description block is rendered exactly when the description key
is present and truthy. -/
theorem exists_description_blocks_iff (yaml : List (Key × Yaml)) :
    (∃ v, Block.description v ∈ description_blocks yaml) ↔
      truthy (py_get yaml (.str "description")) = true := by
  unfold description_blocks
  split
  · rename_i ht
    simp [ht]
  · rename_i ht
    simp [ht]

/-- Helper: when a title and directive pair occurs for exactly one key of an
item_lists table, its section is rendered exactly when that key is present
and truthy. -/
theorem exists_item_section_iff_of_unique (source : List (Key × Yaml))
    (lists : List (String × String × String)) (t dir k : String)
    (huniq : ∀ k0, (k0, t, dir) ∈ lists ↔ k0 = k) :
    (∃ v, Block.item_section t dir v ∈ item_sections source lists) ↔
      truthy (py_get source (.str k)) = true := by
  constructor
  · rintro ⟨v, hv⟩
    rw [item_sections_mem_iff] at hv
    obtain ⟨k0, hk0, -, ht⟩ := hv
    rw [huniq k0] at hk0
    subst hk0
    exact ht
  · intro ht
    exact ⟨_, (item_sections_mem_iff _ _ _ _ _).mpr ⟨k, (huniq k).mpr rfl, rfl, ht⟩⟩

/-- Helper: a workflow whose trigger mapping has a workflow_call mapping
renders the description part followed by the item sections, with no
diagnostic. -/
theorem workflow_transform_content_callable (yaml : List (Key × Yaml))
    (on_map call_map : List (Key × Yaml))
    (hm : wf_on_node yaml = .map on_map)
    (hc : py_get on_map (.str "workflow_call") = .map call_map) :
    workflow_transform_content yaml =
      (description_blocks yaml ++ item_sections call_map workflow_item_lists, none) := by
  simp [workflow_transform_content, hm, is_none, hc]

/-- C5: a workflow whose YAML lacks the on key under both the string key and
the boolean key True, or whose trigger mapping has no workflow_call entry,
makes the directive error and render no item sections; a run without error
implies a workflow_call mapping is present. -/
theorem workflow_requires_workflow_call (yaml : List (Key × Yaml)) :
    (py_get yaml (.str "on") = .null → py_get yaml (.bool true) = .null →
       (workflow_transform_content yaml).2 = some .workflow_no_on ∧
       ∀ t dir v, Block.item_section t dir v ∉ (workflow_transform_content yaml).1) ∧
    (∀ m, wf_on_node yaml = .map m → py_get m (.str "workflow_call") = .null →
       (workflow_transform_content yaml).2 = some .workflow_not_callable ∧
       ∀ t dir v, Block.item_section t dir v ∉ (workflow_transform_content yaml).1) ∧
    ((workflow_transform_content yaml).2 = none →
       ∃ on_map call_map, wf_on_node yaml = .map on_map ∧
         py_get on_map (.str "workflow_call") = .map call_map) := by
  refine ⟨?_, ?_, ?_⟩
  · intro h1 h2
    have hw : wf_on_node yaml = .null := by
      simp [wf_on_node, h1, h2, py_or, truthy]
    constructor
    · simp [workflow_transform_content, hw, is_none]
    · intro t dir v
      simp only [workflow_transform_content, hw, is_none, if_pos]
      exact item_section_not_mem_description_blocks yaml t dir v
  · intro m hm hc
    constructor
    · simp [workflow_transform_content, hm, is_none, hc]
    · intro t dir v
      simp only [workflow_transform_content, hm, is_none, hc, Bool.false_eq_true,
        if_false, if_pos]
      exact item_section_not_mem_description_blocks yaml t dir v
  · intro h
    rcases hw : wf_on_node yaml with _ | b | n | s | xs | on_map
    · simp [workflow_transform_content, hw, is_none] at h
    · simp [workflow_transform_content, hw, is_none] at h
    · simp [workflow_transform_content, hw, is_none] at h
    · simp [workflow_transform_content, hw, is_none] at h
    · simp [workflow_transform_content, hw, is_none] at h
    · rcases hc : py_get on_map (.str "workflow_call") with _ | b | n | s | xs | call_map
      · simp [workflow_transform_content, hw, is_none, hc] at h
      · simp [workflow_transform_content, hw, is_none, hc] at h
      · simp [workflow_transform_content, hw, is_none, hc] at h
      · simp [workflow_transform_content, hw, is_none, hc] at h
      · simp [workflow_transform_content, hw, is_none, hc] at h
      · exact ⟨on_map, call_map, rfl, hc⟩

/-- Witness for C5: a YAML with no on key, one whose trigger mapping is not
callable, and one callable workflow. -/
theorem workflow_requires_workflow_call_witness :
    ((workflow_transform_content []).2 = some .workflow_no_on ∧
       ∀ t dir v, Block.item_section t dir v ∉ (workflow_transform_content []).1) ∧
    ((workflow_transform_content [(Key.str "on", Yaml.map [(Key.str "push", Yaml.null)])]).2
        = some .workflow_not_callable ∧
       ∀ t dir v, Block.item_section t dir v ∉
         (workflow_transform_content [(Key.str "on", Yaml.map [(Key.str "push", Yaml.null)])]).1) ∧
    (∃ on_map call_map,
       wf_on_node [(Key.bool true, Yaml.map [(Key.str "workflow_call", Yaml.map [])])]
         = .map on_map ∧
       py_get on_map (.str "workflow_call") = .map call_map) :=
  ⟨(workflow_requires_workflow_call []).1 rfl rfl,
   (workflow_requires_workflow_call [(Key.str "on", Yaml.map [(Key.str "push", Yaml.null)])]).2.1
     [(Key.str "push", Yaml.null)] rfl rfl,
   (workflow_requires_workflow_call
     [(Key.bool true, Yaml.map [(Key.str "workflow_call", Yaml.map [])])]).2.2 rfl⟩

/-- C6: rendering consults exactly the known keys: the action directive
emits a description block and one section per present (truthy) inputs,
outputs and x-env key of the top level, and the workflow directive, when the
workflow_call mapping is reachable, emits a description block from the top
level and one section per present inputs, secrets and outputs key of the
workflow_call mapping; absent keys are skipped without error. -/
theorem known_keys_rendered (yaml : List (Key × Yaml)) (example_str : String) :
    ((∃ v, Block.description v ∈ action_transform_content yaml example_str) ↔
       truthy (py_get yaml (.str "description")) = true) ∧
    ((∃ v, Block.item_section "Inputs" "action-input" v ∈
        action_transform_content yaml example_str) ↔
       truthy (py_get yaml (.str "inputs")) = true) ∧
    ((∃ v, Block.item_section "Outputs" "action-output" v ∈
        action_transform_content yaml example_str) ↔
       truthy (py_get yaml (.str "outputs")) = true) ∧
    ((∃ v, Block.item_section "Environment Variables" "action-envvar" v ∈
        action_transform_content yaml example_str) ↔
       truthy (py_get yaml (.str "x-env")) = true) ∧
    (∀ on_map call_map, wf_on_node yaml = .map on_map →
       py_get on_map (.str "workflow_call") = .map call_map →
       (workflow_transform_content yaml).2 = none ∧
       ((∃ v, Block.description v ∈ (workflow_transform_content yaml).1) ↔
          truthy (py_get yaml (.str "description")) = true) ∧
       ((∃ v, Block.item_section "Inputs" "workflow-input" v ∈
           (workflow_transform_content yaml).1) ↔
          truthy (py_get call_map (.str "inputs")) = true) ∧
       ((∃ v, Block.item_section "Secrets" "workflow-secret" v ∈
           (workflow_transform_content yaml).1) ↔
          truthy (py_get call_map (.str "secrets")) = true) ∧
       ((∃ v, Block.item_section "Outputs" "workflow-output" v ∈
           (workflow_transform_content yaml).1) ↔
          truthy (py_get call_map (.str "outputs")) = true)) := by
  refine ⟨?_, ?_, ?_, ?_, ?_⟩
  · exact (exists_congr fun v =>
      description_mem_action_transform yaml example_str v).trans
      (exists_description_blocks_iff yaml)
  · exact (exists_congr fun v =>
      item_section_mem_action_transform yaml example_str "Inputs" "action-input" v).trans
      (exists_item_section_iff_of_unique yaml action_item_lists "Inputs" "action-input" "inputs"
        (by intro k0; simp [action_item_lists]))
  · exact (exists_congr fun v =>
      item_section_mem_action_transform yaml example_str "Outputs" "action-output" v).trans
      (exists_item_section_iff_of_unique yaml action_item_lists "Outputs" "action-output" "outputs"
        (by intro k0; simp [action_item_lists]))
  · exact (exists_congr fun v =>
      item_section_mem_action_transform yaml example_str
        "Environment Variables" "action-envvar" v).trans
      (exists_item_section_iff_of_unique yaml action_item_lists
        "Environment Variables" "action-envvar" "x-env"
        (by intro k0; simp [action_item_lists]))
  · intro on_map call_map hm hc
    rw [workflow_transform_content_callable yaml on_map call_map hm hc]
    refine ⟨rfl, ?_, ?_, ?_, ?_⟩
    · refine Iff.trans ?_ (exists_description_blocks_iff yaml)
      refine exists_congr fun v => ?_
      simp only [List.mem_append]
      constructor
      · rintro (h | h)
        · exact h
        · exact absurd h (description_not_mem_item_sections call_map workflow_item_lists v)
      · exact fun h => Or.inl h
    · refine Iff.trans ?_
        (exists_item_section_iff_of_unique call_map workflow_item_lists
          "Inputs" "workflow-input" "inputs" (by intro k0; simp [workflow_item_lists]))
      refine exists_congr fun v => ?_
      simp only [List.mem_append]
      constructor
      · rintro (h | h)
        · exact absurd h (item_section_not_mem_description_blocks yaml _ _ v)
        · exact h
      · exact fun h => Or.inr h
    · refine Iff.trans ?_
        (exists_item_section_iff_of_unique call_map workflow_item_lists
          "Secrets" "workflow-secret" "secrets" (by intro k0; simp [workflow_item_lists]))
      refine exists_congr fun v => ?_
      simp only [List.mem_append]
      constructor
      · rintro (h | h)
        · exact absurd h (item_section_not_mem_description_blocks yaml _ _ v)
        · exact h
      · exact fun h => Or.inr h
    · refine Iff.trans ?_
        (exists_item_section_iff_of_unique call_map workflow_item_lists
          "Outputs" "workflow-output" "outputs" (by intro k0; simp [workflow_item_lists]))
      refine exists_congr fun v => ?_
      simp only [List.mem_append]
      constructor
      · rintro (h | h)
        · exact absurd h (item_section_not_mem_description_blocks yaml _ _ v)
        · exact h
      · exact fun h => Or.inr h

/-- Witness for C6: a callable workflow with a secrets mapping. -/
theorem known_keys_rendered_witness :
    (workflow_transform_content
       [(Key.str "description", Yaml.str "d"),
        (Key.bool true, Yaml.map [(Key.str "workflow_call",
           Yaml.map [(Key.str "secrets", Yaml.map [(Key.str "s", Yaml.null)])])])]).2 = none ∧
    ((∃ v, Block.item_section "Secrets" "workflow-secret" v ∈
        (workflow_transform_content
          [(Key.str "description", Yaml.str "d"),
           (Key.bool true, Yaml.map [(Key.str "workflow_call",
              Yaml.map [(Key.str "secrets", Yaml.map [(Key.str "s", Yaml.null)])])])]).1) ↔
       truthy (py_get [(Key.str "secrets", Yaml.map [(Key.str "s", Yaml.null)])]
         (Key.str "secrets")) = true) :=
  have h := (known_keys_rendered
      [(Key.str "description", Yaml.str "d"),
       (Key.bool true, Yaml.map [(Key.str "workflow_call",
          Yaml.map [(Key.str "secrets", Yaml.map [(Key.str "s", Yaml.null)])])])]
      "").2.2.2.2
    [(Key.str "workflow_call", Yaml.map [(Key.str "secrets", Yaml.map [(Key.str "s", Yaml.null)])])]
    [(Key.str "secrets", Yaml.map [(Key.str "s", Yaml.null)])] rfl rfl
  ⟨h.1, h.2.2.2.1⟩

/-- C9: the workflow directive accepts the trigger mapping under the string
key on or under the boolean key True (the YAML loader parses a bare on key
as the boolean), and the two are processed identically: with a truthy
trigger value and no truthy string-key entry elsewhere, the rendered content
and diagnostic coincide. -/
theorem on_key_string_or_boolean (v : Yaml) (rest : List (Key × Yaml))
    (hv : truthy v = true)
    (hrest : truthy (py_get rest (.str "on")) = false) :
    workflow_transform_content ((Key.str "on", v) :: rest) =
      workflow_transform_content ((Key.bool true, v) :: rest) := by
  have h1 : wf_on_node ((Key.str "on", v) :: rest) = v := by
    simp [wf_on_node, py_get, py_or, hv]
  have h2 : wf_on_node ((Key.bool true, v) :: rest) = v := by
    simp [wf_on_node, py_get, py_or, hrest]
  have h3 : description_blocks ((Key.str "on", v) :: rest) = description_blocks rest := by
    simp [description_blocks, py_get]
  have h4 : description_blocks ((Key.bool true, v) :: rest) = description_blocks rest := by
    simp [description_blocks, py_get]
  simp only [workflow_transform_content, h1, h2, h3, h4]

/-- Witness for C9 with a concrete callable trigger mapping. -/
theorem on_key_string_or_boolean_witness :
    workflow_transform_content [(Key.str "on", Yaml.map [(Key.str "workflow_call", Yaml.map [])])] =
      workflow_transform_content [(Key.bool true, Yaml.map [(Key.str "workflow_call", Yaml.map [])])] :=
  on_key_string_or_boolean (Yaml.map [(Key.str "workflow_call", Yaml.map [])]) []
    (by decide) (by decide)

/-- Modelled from the spec wording: the spec admits only two failure modes,
a required YAML key missing and an ambiguous cross reference. -/
def spec_failure_mode : Diag → Bool
  | .workflow_no_on => true
  | .workflow_not_callable => true
  | .xref_ambiguous _ _ => true
  | _ => false

/-- C7 counterexample: a file directive invoked with neither a name argument
nor a path option errors, and that diagnostic is neither a missing YAML key
nor an ambiguous cross reference. -/
theorem only_two_failure_modes_cx :
    id_compute (fun s => s) [] none = Except.error Diag.no_path_or_name ∧
    spec_failure_mode Diag.no_path_or_name = false :=
  ⟨rfl, rfl⟩

/-- Helper: the example generator errors exactly when a path is present and
the repo slug configuration is unset. -/
theorem action_example_gen_error_iff (p sl : Option String) (rp : String)
    (ar : Option String) (y : List (Key × Yaml)) :
    (∃ e, action_example_gen p sl rp ar y = Except.error e) ↔
      (p.isSome = true ∧ sl = none) := by
  cases p <;> cases sl <;> simp [action_example_gen]

/-- C7 amended: the extension emits a diagnostic in exactly these
situations: a file directive with neither name nor path; a path option
under which no action definition is found; an action example needed while
the repo slug configuration is unset; a workflow without an on trigger node
or without a workflow_call entry; and an ambiguous cross reference. -/
theorem diagnostics_characterized :
    (∀ f args path, (∃ e, id_compute f args path = Except.error e) ↔
       (args = [] ∧ path = none)) ∧
    (∀ p root fe fi, (∃ e, action_path_compute p root fe fi = Except.error e) ↔
       (∃ q, p = some q ∧ fe (root ++ "/" ++ q ++ "/action.yml") = false ∧
          fe (root ++ "/" ++ q ++ "/action.yaml") = false ∧
          fi (root ++ "/" ++ q) = false)) ∧
    (∀ xe p sl rp ar y, (∃ e, action_example xe p sl rp ar y = Except.error e) ↔
       ((xe = none ∨ xe = some "") ∧ p.isSome = true ∧ sl = none)) ∧
    (∀ y, (workflow_transform_content y).2 = some Diag.workflow_no_on ↔
       is_none (wf_on_node y) = true) ∧
    (∀ y m, wf_on_node y = .map m →
       ((workflow_transform_content y).2 = some Diag.workflow_not_callable ↔
          is_none (py_get m (.str "workflow_call")) = true)) ∧
    (∀ objs fromdoc typ target ctx,
       (resolve_xref_pure objs fromdoc typ target ctx).1 ≠ [] ↔
         2 ≤ (scan_matches objs typ (effective_target typ target ctx)).length) := by
  refine ⟨?_, ?_, ?_, ?_, ?_, ?_⟩
  · intro f args path
    cases args with
    | cons a t => simp [id_compute]
    | nil => cases path <;> simp [id_compute]
  · intro p root fe fi
    cases p with
    | none => simp [action_path_compute]
    | some q =>
      simp only [action_path_compute]
      by_cases h1 : fe (root ++ "/" ++ q ++ "/action.yml") = true
      · simp [h1]
      · by_cases h2 : fe (root ++ "/" ++ q ++ "/action.yaml") = true
        · simp [h1, h2]
        · by_cases h3 : fi (root ++ "/" ++ q) = true
          · simp [h1, h2, h3]
          · simp [h1, h2, h3, Bool.not_eq_true] at *
  · intro xe p sl rp ar y
    cases xe with
    | none => simpa [action_example] using action_example_gen_error_iff p sl rp ar y
    | some s =>
      by_cases hs : s = ""
      · subst hs
        simpa [action_example] using action_example_gen_error_iff p sl rp ar y
      · simp [action_example, hs]
  · intro y
    rcases hw : wf_on_node y with _ | b | n | s | xs | m
    · simp [workflow_transform_content, hw, is_none]
    · simp [workflow_transform_content, hw, is_none]
    · simp [workflow_transform_content, hw, is_none]
    · simp [workflow_transform_content, hw, is_none]
    · simp [workflow_transform_content, hw, is_none]
    · rcases hc : py_get m (.str "workflow_call") with _ | b2 | n2 | s2 | xs2 | m2 <;>
        simp [workflow_transform_content, hw, is_none, hc]
  · intro y m hw
    rcases hc : py_get m (.str "workflow_call") with _ | b2 | n2 | s2 | xs2 | m2 <;>
      simp [workflow_transform_content, hw, is_none, hc]
  · intro objs fromdoc typ target ctx
    simp only [resolve_xref_pure]
    cases hms : scan_matches objs typ (effective_target typ target ctx) with
    | nil => simp [mk_xref_result]
    | cons a t =>
      cases t with
      | nil => simp [mk_xref_result]
      | cons b t2 => simp [mk_xref_result]

/-- Witness for C7 amended: the workflow-not-callable characterization at a
concrete trigger mapping. -/
theorem diagnostics_characterized_witness :
    (workflow_transform_content [(Key.str "on", Yaml.map [(Key.str "push", Yaml.null)])]).2
        = some Diag.workflow_not_callable ↔
      is_none (py_get [(Key.str "push", Yaml.null)] (.str "workflow_call")) = true :=
  diagnostics_characterized.2.2.2.2.1
    [(Key.str "on", Yaml.map [(Key.str "push", Yaml.null)])]
    [(Key.str "push", Yaml.null)] rfl

/-- Modelled from the claim wording of C10: the option set of an item
directive as the claim describes it — the fields of the class, description,
and the options the subclass itself declares. -/
def claimed_option_set (k : ItemKind) : List String :=
  dict_union (dict_union ((own_option_spec k).getD []) (fields_of k)) ["description"]

/-- C10 counterexample: the action-output directive keeps the required
metadata key, because the option_spec dict it shares with the base class was
mutated in place by the sibling subclasses, yet required is not in the
option set the claim describes for action-output. -/
theorem generate_option_filter_cx :
    generate_options .action_output [(Key.str "required", Yaml.bool true)]
        = [("required", "True")] ∧
    claimed_option_set .action_output = ["description"] ∧
    ¬ "required" ∈ claimed_option_set .action_output :=
  ⟨rfl, rfl, by decide⟩

/-- C10 amended: generate keeps exactly the metadata keys present in the
option_spec produced by the class initialization, converting each kept value
with str, and a None metadata mapping yields no options; the shared mutated
dict gives every subclass except action-input the option keys description,
required, default and type, while action-input has deprecationMessage,
required, default and description. -/
theorem generate_option_filter :
    option_spec_keys .action_input
        = ["deprecationMessage", "required", "default", "description"] ∧
    (∀ k, own_option_spec k = none →
       option_spec_keys k = ["description", "required", "default", "type"]) ∧
    (∀ k meta s t, (s, t) ∈ generate_options k meta ↔
       ∃ v, (Key.str s, v) ∈ meta ∧ s ∈ option_spec_keys k ∧ t = py_str v) ∧
    (∀ k, generate_options k (item_meta_or_empty Yaml.null) = []) := by
  refine ⟨by decide, ?_, ?_, fun k => rfl⟩
  · intro k hk
    cases k
    · exact absurd hk (by decide)
    · decide
    · decide
    · decide
    · decide
    · decide
  · intro k meta s t
    simp only [generate_options, List.mem_filterMap]
    constructor
    · rintro ⟨⟨k0, v0⟩, hmem, hf⟩
      cases k0 with
      | str s0 =>
        dsimp at hf
        split at hf
        · rename_i hc
          rw [Option.some.injEq, Prod.mk.injEq] at hf
          obtain ⟨hs, ht⟩ := hf
          subst hs
          subst ht
          exact ⟨v0, hmem, by simpa using hc, rfl⟩
        · exact absurd hf (by simp)
      | bool b => exact absurd hf (by simp)
    · rintro ⟨v, hmem, hs, ht⟩
      refine ⟨(Key.str s, v), hmem, ?_⟩
      dsimp
      rw [if_pos (by simpa using hs)]
      subst ht
      rfl

/-- Witness for C10 amended at the action-output directive. -/
theorem generate_option_filter_witness :
    option_spec_keys .action_output = ["description", "required", "default", "type"] :=
  generate_option_filter.2.1 .action_output rfl

end SphinxGHA
